import Mathlib

/-!
Shallow embedding of the Weather-ChatBot program (src/main.py) and proofs of
the specification claims.

The program has two parts:
* `fetch_weather_from_api` (main.py lines 25-55): an HTTP GET to the weather
  provider followed by extraction of `main.temp` (Kelvin, converted to Celsius
  and rounded to one decimal place) and `weather[0].description`.
* `chat_with_bot` (main.py lines 57-144): a console loop that strips and
  lower-cases the input for the quit check, appends the user message, calls the
  language model with a single function schema, optionally dispatches the
  requested weather lookup and calls the model a second time without a schema,
  and prints and appends the assistant reply.

Network and console I/O are modelled by oracles passed explicitly; JSON values
are a Lean inductive; Python exceptions become an error type in `Except`.
-/

namespace WeatherBot

/-- JSON values as delivered by the weather provider (decoded Python objects:
`resp.json()` in main.py line 48). Objects keep field order; Python dict keys
are unique, so `List.lookup` is dictionary lookup. -/
inductive Json where
  | null : Json
  | bool (b : Bool) : Json
  | num (q : ℚ) : Json
  | str (s : String) : Json
  | arr (elems : List Json) : Json
  | obj (fields : List (String × Json)) : Json

/-- Errors a session can die of.  `keyError`, `indexError` and `typeError` are
the Python exceptions raised while picking the provider response apart (the
spec's UpstreamDataError class); `connectivityError` models a failed HTTP GET;
`modelError` models a failure of the language-model endpoint. -/
inductive Err where
  | keyError : Err
  | indexError : Err
  | typeError : Err
  | connectivityError : Err
  | modelError : Err
  deriving DecidableEq, Repr

/-- The spec's UpstreamDataError kind: a malformed or unexpected response shape
(Python KeyError / IndexError / TypeError while destructuring the JSON). -/
def Err.isUpstreamDataError : Err → Bool
  | .keyError => true
  | .indexError => true
  | .typeError => true
  | .connectivityError => false
  | .modelError => false

/-- Embeds Python subscripting `value["key"]` on a decoded JSON value: KeyError
when the key is absent from a dict, TypeError when the value is not a dict. -/
def pyGetItem : Json → String → Except Err Json
  | .obj fields, k =>
    match fields.lookup k with
    | some v => .ok v
    | none => .error .keyError
  | _, _ => .error .typeError

/-- Embeds Python subscripting `value[i]` with an integer index: IndexError when
the list is too short, an error (KeyError/TypeError depending on the value's
type) when the value is not a list. -/
def pyGetIndex : Json → Nat → Except Err Json
  | .arr elems, i =>
    match elems.get? i with
    | some v => .ok v
    | none => .error .indexError
  | _, _ => .error .typeError

/-- Embeds the numeric use of `temp_k` in `temp_k - 273.15` (main.py line 52):
a TypeError unless the JSON value is a number. -/
def Json.asNum : Json → Except Err ℚ
  | .num q => .ok q
  | _ => .error .typeError

/-- Python's `round` ties-to-even rounding of a rational to an integer
(main.py line 55 rounds to one decimal; `pyRound1` below scales by 10).
The source rounds IEEE doubles; here the arithmetic is exact rationals, which
agrees with the source on every value the spec pins down. -/
def roundHalfEven (q : ℚ) : ℤ :=
  if q - ⌊q⌋ < 1 / 2 then ⌊q⌋
  else if q - ⌊q⌋ > 1 / 2 then ⌊q⌋ + 1
  else if ⌊q⌋ % 2 = 0 then ⌊q⌋ else ⌊q⌋ + 1

/-- Embeds Python `round(temp, 1)` (main.py line 55). -/
def pyRound1 (q : ℚ) : ℚ := (roundHalfEven (10 * q) : ℚ) / 10

/-- The dictionary `{"conditions": ..., "temperature": ...}` returned by
`fetch_weather_from_api` (main.py line 55).  `conditions` is whatever JSON
value sat under `description`; `temperature` is Celsius rounded to one
decimal. -/
structure WeatherResult where
  conditions : Json
  temperature : ℚ

/-- Embeds `fetch_weather_from_api` (main.py lines 25-55).  The HTTP GET of
lines 46-48 is modelled by the oracle `http`, mapping the requested location to
either the decoded JSON body or a `connectivityError`.  The extraction steps
follow the source order: `data["main"]["temp"]`, the Kelvin-to-Celsius
subtraction, then `data["weather"][0]["description"]`, and only then is the
result dictionary built. -/
def fetch_weather_from_api (http : String → Except Err Json) (location : String) :
    Except Err WeatherResult := do
  let data ← http location
  let mainObj ← pyGetItem data "main"
  let tempJ ← pyGetItem mainObj "temp"
  let temp_k ← tempJ.asNum
  let temp := temp_k - 273.15
  let weatherList ← pyGetItem data "weather"
  let firstEntry ← pyGetIndex weatherList 0
  let conditions ← pyGetItem firstEntry "description"
  return { conditions := conditions, temperature := pyRound1 temp }

mutual

/-- Embeds Python `str(...)` on a decoded JSON value, as used to embed the
lookup result into the function-result message (main.py line 130).  Python's
float formatting is not reproduced for the numeric leaves (the embedding
prints exact rationals); no claim depends on this text. -/
def renderJson : Json → String
  | .null => "None"
  | .bool b => if b then "True" else "False"
  | .num q => toString q
  | .str s => "'" ++ s ++ "'"
  | .arr elems => "[" ++ renderJsonList elems ++ "]"
  | .obj fields => "\x7b" ++ renderJsonFields fields ++ "\x7d"

/-- Renders the elements of a JSON array, comma separated. -/
def renderJsonList : List Json → String
  | [] => ""
  | [j] => renderJson j
  | j :: rest => renderJson j ++ ", " ++ renderJsonList rest

/-- Renders the fields of a JSON object, comma separated. -/
def renderJsonFields : List (String × Json) → String
  | [] => ""
  | [(k, v)] => "'" ++ k ++ "': " ++ renderJson v
  | (k, v) :: rest => "'" ++ k ++ "': " ++ renderJson v ++ ", " ++ renderJsonFields rest

end

/-- Embeds `str(weather_data)` (main.py line 130): the Python dict repr of the
`fetch_weather_from_api` result. -/
def weatherDataStr (w : WeatherResult) : String :=
  "\x7b'conditions': " ++ renderJson w.conditions ++ ", 'temperature': "
    ++ toString w.temperature ++ "\x7d"

/-- Embeds Python `str.lower()` (main.py line 90).  Agrees with Python on all
ASCII input, which is all the quit check needs. -/
def pyLower (s : String) : String := ⟨s.data.map Char.toLower⟩

/-- Embeds Python `str.strip()` (main.py line 88): drop whitespace from both
ends of the line. -/
def pyStrip (s : String) : String :=
  ⟨((s.data.dropWhile Char.isWhitespace).reverse.dropWhile Char.isWhitespace).reverse⟩

/-- One entry of the `messages` list (main.py lines 77-82, 95, 127-131, 140,
144): a role, an optional function name (present exactly on function-result
messages) and the text content. -/
structure Message where
  role : String
  name : Option String
  content : String
  deriving DecidableEq

/-- A chat-completion choice message as the loop consumes it
(`response.choices[0].message`): the text content and the optional
function-call request.  The `arguments` payload is modelled after `eval`
(main.py line 123) has turned a well-formed dictionary literal into key/value
pairs; that `eval` executes arbitrary payloads as code is the subject of claim
C1 and has no semantics inside the embedding. -/
structure ModelMsg where
  content : String
  function_call : Option (List (String × String))

/-- A function schema as declared to the model. -/
structure FunctionSchema where
  name : String
  requiredParams : List String
  deriving DecidableEq

/-- The schema sent with the first model call of each turn (main.py lines
101-114): name `fetch_weather_from_api`, one required string parameter
`location`. -/
def weatherSchema : FunctionSchema := ⟨"fetch_weather_from_api", ["location"]⟩

/-- Embeds the call `fetch_weather_from_api(**function_args)` (main.py line
124): Python binds the keyword dictionary against the function's single
parameter `location`; any extra or missing keyword raises TypeError.  Returns
the value bound to `location`. -/
def applyFetchKwargs : List (String × String) → Except Err String
  | [(k, v)] => if k = "location" then .ok v else .error .typeError
  | _ => .error .typeError

/-- Follows the spec's words (§4.2 argument-parsing policy), for comparison
with the source's behaviour in claim C1: parse the payload as data only and
extract exactly the one recognized key `location`. -/
def specExtractLocation (payload : List (String × String)) : Option String :=
  payload.lookup "location"

/-- The external world as the loop sees it: the language-model endpoint
(called with an optional function schema and the transcript, main.py lines
98-116 and 134-137) and the weather provider's HTTP layer used inside
`fetch_weather_from_api`. -/
structure Env where
  model : Option FunctionSchema → List Message → Except Err ModelMsg
  http : String → Except Err Json

/-- Observable actions of one loop iteration, in order of occurrence. -/
inductive Event where
  | modelCall (schema : Option FunctionSchema) (transcript : List Message) : Event
  | weatherCall (kwargs : List (String × String)) : Event
  | print (text : String) : Event
  deriving DecidableEq

/-- Result of one pass through the `while True` body (main.py lines 86-144):
the session either breaks out (`quit`), carries on with the grown transcript,
or dies of an uncaught exception.  Each constructor records the events of the
iteration and the transcript as the iteration leaves it. -/
inductive StepResult where
  | quit (events : List Event) (messages : List Message) : StepResult
  | next (events : List Event) (messages : List Message) : StepResult
  | failed (e : Err) (events : List Event) (messages : List Message) : StepResult
  deriving DecidableEq

/-- The transcript a step result leaves behind. -/
def StepResult.messages : StepResult → List Message
  | .quit _ ms => ms
  | .next _ ms => ms
  | .failed _ _ ms => ms

/-- The events a step result records. -/
def StepResult.events : StepResult → List Event
  | .quit evs _ => evs
  | .next evs _ => evs
  | .failed _ evs _ => evs

/-- Embeds one iteration of the `while True` loop of `chat_with_bot`
(main.py lines 86-144), the read input line passed in.  Mirrors the source
order: strip, quit check, append the user message, first model call with the
schema, then either the direct-answer branch or the weather dispatch followed
by a second, schema-less model call.  Uncaught Python exceptions surface as
`StepResult.failed`. -/
def chatStep (env : Env) (messages : List Message) (line : String) : StepResult :=
  let user_input := pyStrip line
  if pyLower user_input = "quit" then
    .quit [.print "Chat Bot: Goodbye!"] messages
  else
    let msgs1 := messages ++ [⟨"user", none, user_input⟩]
    match env.model (some weatherSchema) msgs1 with
    | .error e => .failed e [.modelCall (some weatherSchema) msgs1] msgs1
    | .ok assistant_message =>
      match assistant_message.function_call with
      | some function_args =>
        match applyFetchKwargs function_args with
        | .error e =>
          .failed e [.modelCall (some weatherSchema) msgs1] msgs1
        | .ok location =>
          match fetch_weather_from_api env.http location with
          | .error e =>
            .failed e [.modelCall (some weatherSchema) msgs1, .weatherCall function_args] msgs1
          | .ok weather_data =>
            let msgs2 := msgs1
              ++ [⟨"function", some "fetch_weather_from_api", weatherDataStr weather_data⟩]
            match env.model none msgs2 with
            | .error e =>
              .failed e [.modelCall (some weatherSchema) msgs1, .weatherCall function_args,
                         .modelCall none msgs2] msgs2
            | .ok second_message =>
              .next [.modelCall (some weatherSchema) msgs1, .weatherCall function_args,
                     .modelCall none msgs2, .print ("Chat Bot: " ++ second_message.content)]
                (msgs2 ++ [⟨"assistant", none, second_message.content⟩])
      | none =>
        .next [.modelCall (some weatherSchema) msgs1,
               .print ("Chat Bot: " ++ assistant_message.content)]
          (msgs1 ++ [⟨"assistant", none, assistant_message.content⟩])

/-- How a finite run ends: the user typed `quit`, the supplied input lines ran
out (an artifact of running the loop on a finite stdin model), or an uncaught
error killed the session. -/
inductive Outcome where
  | exited : Outcome
  | inputGone : Outcome
  | crashed (e : Err) : Outcome
  deriving DecidableEq

/-- Embeds the `while True` loop run on a finite list of stdin lines,
accumulating the events of every iteration and threading the transcript. -/
def chatLoop (env : Env) : List String → List Message → List Event × List Message × Outcome
  | [], messages => ([], messages, .inputGone)
  | line :: rest, messages =>
    match chatStep env messages line with
    | .quit evs msgs => (evs, msgs, .exited)
    | .failed e evs msgs => (evs, msgs, .crashed e)
    | .next evs msgs =>
      let r := chatLoop env rest msgs
      (evs ++ r.1, r.2.1, r.2.2)

/-- The initial transcript: exactly the system prompt (main.py lines 77-82). -/
def initialMessages : List Message :=
  [⟨"system", none,
    "You are a helpful weather assistant. When users ask about weather, extract the location from the user's message and respond with weather information in Celsius."⟩]

/-- Embeds `chat_with_bot` (main.py lines 57-144) run on a finite list of
input lines, starting from the system-prompt transcript. -/
def chat_with_bot (env : Env) (lines : List String) :
    List Event × List Message × Outcome :=
  chatLoop env lines initialMessages

/-- Decides success of an `Except` computation. -/
def exceptOk {α : Type} : Except Err α → Bool
  | .ok _ => true
  | .error _ => false

/-- The provider response carries the `weather` list (the subscript
`data["weather"]` succeeds). -/
def hasWeatherList (data : Json) : Bool := exceptOk (pyGetItem data "weather")

/-- The provider response carries `main.temp`. -/
def hasMainTemp (data : Json) : Bool :=
  exceptOk ((pyGetItem data "main").bind fun m => pyGetItem m "temp")

/-- The provider response carries `weather[0].description`. -/
def hasFirstDescription (data : Json) : Bool :=
  exceptOk ((pyGetItem data "weather").bind fun w =>
    (pyGetIndex w 0).bind fun w0 => pyGetItem w0 "description")

/-- A well-formed sample provider response: 300.15 K and description
`clear sky`. -/
def sampleResp : Json :=
  .obj [("main", .obj [("temp", .num 300.15)]),
        ("weather", .arr [.obj [("description", .str "clear sky")]])]

/-- The user message and assistant reply appended by each direct-answer turn,
one pair per input line, in input order. -/
def interleaveTurns : List String → List String → List Message
  | l :: ls, a :: rs =>
    ⟨"user", none, pyStrip l⟩ :: ⟨"assistant", none, a⟩ :: interleaveTurns ls rs
  | _, _ => []

/-- A model oracle that always answers directly, over an HTTP layer that always
fails: enough to drive direct-answer turns and quit handling. -/
def envDirect : Env := ⟨fun _ _ => .ok ⟨"hi there", none⟩, fun _ => .error .connectivityError⟩

/-- A model oracle that requests the weather lookup for Berlin on a schema
call and answers directly on a schema-less call, over an HTTP layer serving
`sampleResp`. -/
def envWeather : Env :=
  ⟨fun sch _ => match sch with
    | some _ => .ok ⟨"", some [("location", "Berlin")]⟩
    | none => .ok ⟨"It is 27.0 and clear in Berlin.", none⟩,
   fun _ => .ok sampleResp⟩

/-- A model oracle that always fails. -/
def envModelFail : Env := ⟨fun _ _ => .error .modelError, fun _ => .error .connectivityError⟩

/-- A model oracle whose function-call payload carries an extra key besides
`location`. -/
def envEvil : Env :=
  ⟨fun sch _ => match sch with
    | some _ => .ok ⟨"", some [("location", "Paris"), ("units", "metric")]⟩
    | none => .ok ⟨"", none⟩,
   fun _ => .ok sampleResp⟩
/-! ## Helper lemmas -/


/-- Bind in `Except Err` applied to a success. -/
theorem exceptBind_ok {α β : Type} (a : α) (f : α → Except Err β) :
    (Except.ok a : Except Err α).bind f = f a := rfl

/-- Bind in `Except Err` applied to a failure. -/
theorem exceptBind_error {α β : Type} (e : Err) (f : α → Except Err β) :
    (Except.error e : Except Err α).bind f = Except.error e := rfl

/-- Inversion: a successful bind comes from a successful first step. -/
theorem exceptBind_eq_ok {α β : Type} {x : Except Err α} {f : α → Except Err β} {b : β}
    (h : x.bind f = .ok b) : ∃ a, x = .ok a ∧ f a = .ok b := by
  cases x with
  | ok a => exact ⟨a, rfl, h⟩
  | error e => cases h

/-- Inversion: a failing bind fails in the first step or after it. -/
theorem exceptBind_eq_error {α β : Type} {x : Except Err α} {f : α → Except Err β} {e : Err}
    (h : x.bind f = .error e) :
    x = .error e ∨ ∃ a, x = .ok a ∧ f a = .error e := by
  cases x with
  | ok a => exact .inr ⟨a, rfl, h⟩
  | error e' => cases h; exact .inl rfl

/-- Subscripting a JSON value with a key only ever raises response-shape
errors. -/
theorem pyGetItem_error_upstream {j : Json} {k : String} {e : Err}
    (h : pyGetItem j k = .error e) : e.isUpstreamDataError = true := by
  unfold pyGetItem at h
  split at h
  · split at h
    · cases h
    · cases h; rfl
  · cases h; rfl

/-- Subscripting a JSON value with an index only ever raises response-shape
errors. -/
theorem pyGetIndex_error_upstream {j : Json} {i : Nat} {e : Err}
    (h : pyGetIndex j i = .error e) : e.isUpstreamDataError = true := by
  unfold pyGetIndex at h
  split at h
  · split at h
    · cases h
    · cases h; rfl
  · cases h; rfl

/-- Reading a JSON value as a number only ever raises a response-shape
error. -/
theorem asNum_error_upstream {j : Json} {e : Err}
    (h : j.asNum = .error e) : e.isUpstreamDataError = true := by
  unfold Json.asNum at h
  split at h
  · cases h
  · cases h; rfl

/-- Rounding below the midpoint goes down. -/
theorem roundHalfEven_eq_low {q : ℚ} {n : ℤ} (h1 : (n : ℚ) ≤ q) (h2 : q < (n : ℚ) + 1 / 2) :
    roundHalfEven q = n := by
  have hf : ⌊q⌋ = n := Int.floor_eq_iff.mpr ⟨h1, by linarith⟩
  unfold roundHalfEven
  rw [hf, if_pos (by linarith)]

/-- Rounding above the midpoint goes up. -/
theorem roundHalfEven_eq_high {q : ℚ} {n : ℤ} (h1 : (n : ℚ) + 1 / 2 < q) (h2 : q < (n : ℚ) + 1) :
    roundHalfEven q = n + 1 := by
  have hf : ⌊q⌋ = n := Int.floor_eq_iff.mpr ⟨by linarith, by linarith⟩
  unfold roundHalfEven
  rw [hf, if_neg (by linarith), if_pos (by linarith)]

/-- One-decimal rounding below the midpoint. -/
theorem pyRound1_eq_low {q : ℚ} {n : ℤ} (h1 : (n : ℚ) ≤ 10 * q) (h2 : 10 * q < (n : ℚ) + 1 / 2) :
    pyRound1 q = (n : ℚ) / 10 := by
  unfold pyRound1
  rw [roundHalfEven_eq_low h1 h2]

/-- One-decimal rounding above the midpoint. -/
theorem pyRound1_eq_high {q : ℚ} {n : ℤ} (h1 : (n : ℚ) + 1 / 2 < 10 * q) (h2 : 10 * q < (n : ℚ) + 1) :
    pyRound1 q = ((n : ℚ) + 1) / 10 := by
  unfold pyRound1
  rw [roundHalfEven_eq_high h1 h2]
  push_cast
  ring

/-- Inversion of a successful weather fetch: the response decoded, every
extraction step succeeded, and the result is built from the extracted Kelvin
temperature and description. -/
theorem fetch_ok_inv {http : String → Except Err Json} {loc : String} {r : WeatherResult}
    (h : fetch_weather_from_api http loc = .ok r) :
    ∃ data mainObj tempJ k wList w0 cond,
      http loc = .ok data ∧
      pyGetItem data "main" = .ok mainObj ∧
      pyGetItem mainObj "temp" = .ok tempJ ∧
      tempJ.asNum = .ok k ∧
      pyGetItem data "weather" = .ok wList ∧
      pyGetIndex wList 0 = .ok w0 ∧
      pyGetItem w0 "description" = .ok cond ∧
      r = ⟨cond, pyRound1 (k - 273.15)⟩ := by
  unfold fetch_weather_from_api at h
  simp only [bind] at h
  obtain ⟨data, hd, h⟩ := exceptBind_eq_ok h
  obtain ⟨mainObj, hm, h⟩ := exceptBind_eq_ok h
  obtain ⟨tempJ, ht, h⟩ := exceptBind_eq_ok h
  obtain ⟨k, hk, h⟩ := exceptBind_eq_ok h
  obtain ⟨wList, hw, h⟩ := exceptBind_eq_ok h
  obtain ⟨w0, h0, h⟩ := exceptBind_eq_ok h
  obtain ⟨cond, hc, h⟩ := exceptBind_eq_ok h
  exact ⟨data, mainObj, tempJ, k, wList, w0, cond, hd, hm, ht, hk, hw, h0, hc,
    (Except.ok.inj h).symm⟩

/-- Once the HTTP layer has delivered a body, every failure of the weather
fetch is a response-shape failure. -/
theorem fetch_error_upstream {http : String → Except Err Json} {loc : String}
    {data : Json} {e : Err}
    (hhttp : http loc = .ok data)
    (h : fetch_weather_from_api http loc = .error e) :
    e.isUpstreamDataError = true := by
  unfold fetch_weather_from_api at h
  simp only [bind] at h
  rcases exceptBind_eq_error h with h' | ⟨data', hd, h⟩
  · rw [hhttp] at h'; cases h'
  · rcases exceptBind_eq_error h with h' | ⟨mainObj, hm, h⟩
    · exact pyGetItem_error_upstream h'
    · rcases exceptBind_eq_error h with h' | ⟨tempJ, ht, h⟩
      · exact pyGetItem_error_upstream h'
      · rcases exceptBind_eq_error h with h' | ⟨k, hk, h⟩
        · exact asNum_error_upstream h'
        · rcases exceptBind_eq_error h with h' | ⟨wList, hw, h⟩
          · exact pyGetItem_error_upstream h'
          · rcases exceptBind_eq_error h with h' | ⟨w0, h0, h⟩
            · exact pyGetIndex_error_upstream h'
            · rcases exceptBind_eq_error h with h' | ⟨cond, hc, h⟩
              · exact pyGetItem_error_upstream h'
              · cases h
theorem chatStep_quit {env : Env} {msgs : List Message} {line : String}
    (hq : pyLower (pyStrip line) = "quit") :
    chatStep env msgs line = .quit [.print "Chat Bot: Goodbye!"] msgs := by
  unfold chatStep
  simp only [hq, if_pos]

theorem chatStep_direct {env : Env} {msgs : List Message} {line : String} {c : String}
    (hq : pyLower (pyStrip line) ≠ "quit")
    (hm : env.model (some weatherSchema) (msgs ++ [⟨"user", none, pyStrip line⟩])
        = .ok ⟨c, none⟩) :
    chatStep env msgs line = .next
      [.modelCall (some weatherSchema) (msgs ++ [⟨"user", none, pyStrip line⟩]),
       .print ("Chat Bot: " ++ c)]
      (msgs ++ [⟨"user", none, pyStrip line⟩, ⟨"assistant", none, c⟩]) := by
  unfold chatStep
  simp only [if_neg hq, hm, List.append_assoc, List.cons_append, List.nil_append]

theorem chatStep_weather {env : Env} {msgs : List Message} {line : String}
    {c1 c2 : String} {args : List (String × String)} {loc : String} {w : WeatherResult}
    {fc2 : Option (List (String × String))}
    (hq : pyLower (pyStrip line) ≠ "quit")
    (hm1 : env.model (some weatherSchema) (msgs ++ [⟨"user", none, pyStrip line⟩])
        = .ok ⟨c1, some args⟩)
    (hargs : applyFetchKwargs args = .ok loc)
    (hw : fetch_weather_from_api env.http loc = .ok w)
    (hm2 : env.model none (msgs ++ [⟨"user", none, pyStrip line⟩,
        ⟨"function", some "fetch_weather_from_api", weatherDataStr w⟩]) = .ok ⟨c2, fc2⟩) :
    chatStep env msgs line = .next
      [.modelCall (some weatherSchema) (msgs ++ [⟨"user", none, pyStrip line⟩]),
       .weatherCall args,
       .modelCall none (msgs ++ [⟨"user", none, pyStrip line⟩,
         ⟨"function", some "fetch_weather_from_api", weatherDataStr w⟩]),
       .print ("Chat Bot: " ++ c2)]
      (msgs ++ [⟨"user", none, pyStrip line⟩,
        ⟨"function", some "fetch_weather_from_api", weatherDataStr w⟩,
        ⟨"assistant", none, c2⟩]) := by
  unfold chatStep
  simp only [if_neg hq, hm1, hargs, hw, List.append_assoc, List.cons_append,
    List.nil_append] at hm2 ⊢
  simp only [hm2]


theorem chatStep_model1_error {env : Env} {msgs : List Message} {line : String} {e : Err}
    (hq : pyLower (pyStrip line) ≠ "quit")
    (hm : env.model (some weatherSchema) (msgs ++ [⟨"user", none, pyStrip line⟩])
        = .error e) :
    chatStep env msgs line = .failed e
      [.modelCall (some weatherSchema) (msgs ++ [⟨"user", none, pyStrip line⟩])]
      (msgs ++ [⟨"user", none, pyStrip line⟩]) := by
  unfold chatStep
  simp only [if_neg hq, hm]

theorem chatStep_kwargs_error {env : Env} {msgs : List Message} {line : String}
    {c1 : String} {args : List (String × String)} {e : Err}
    (hq : pyLower (pyStrip line) ≠ "quit")
    (hm1 : env.model (some weatherSchema) (msgs ++ [⟨"user", none, pyStrip line⟩])
        = .ok ⟨c1, some args⟩)
    (hargs : applyFetchKwargs args = .error e) :
    chatStep env msgs line = .failed e
      [.modelCall (some weatherSchema) (msgs ++ [⟨"user", none, pyStrip line⟩])]
      (msgs ++ [⟨"user", none, pyStrip line⟩]) := by
  unfold chatStep
  simp only [if_neg hq, hm1, hargs]

theorem chatStep_fetch_error {env : Env} {msgs : List Message} {line : String}
    {c1 : String} {args : List (String × String)} {loc : String} {e : Err}
    (hq : pyLower (pyStrip line) ≠ "quit")
    (hm1 : env.model (some weatherSchema) (msgs ++ [⟨"user", none, pyStrip line⟩])
        = .ok ⟨c1, some args⟩)
    (hargs : applyFetchKwargs args = .ok loc)
    (hw : fetch_weather_from_api env.http loc = .error e) :
    chatStep env msgs line = .failed e
      [.modelCall (some weatherSchema) (msgs ++ [⟨"user", none, pyStrip line⟩]),
       .weatherCall args]
      (msgs ++ [⟨"user", none, pyStrip line⟩]) := by
  unfold chatStep
  simp only [if_neg hq, hm1, hargs, hw]

theorem chatStep_model2_error {env : Env} {msgs : List Message} {line : String}
    {c1 : String} {args : List (String × String)} {loc : String} {w : WeatherResult} {e : Err}
    (hq : pyLower (pyStrip line) ≠ "quit")
    (hm1 : env.model (some weatherSchema) (msgs ++ [⟨"user", none, pyStrip line⟩])
        = .ok ⟨c1, some args⟩)
    (hargs : applyFetchKwargs args = .ok loc)
    (hw : fetch_weather_from_api env.http loc = .ok w)
    (hm2 : env.model none (msgs ++ [⟨"user", none, pyStrip line⟩,
        ⟨"function", some "fetch_weather_from_api", weatherDataStr w⟩]) = .error e) :
    chatStep env msgs line = .failed e
      [.modelCall (some weatherSchema) (msgs ++ [⟨"user", none, pyStrip line⟩]),
       .weatherCall args,
       .modelCall none (msgs ++ [⟨"user", none, pyStrip line⟩,
         ⟨"function", some "fetch_weather_from_api", weatherDataStr w⟩])]
      (msgs ++ [⟨"user", none, pyStrip line⟩,
        ⟨"function", some "fetch_weather_from_api", weatherDataStr w⟩]) := by
  unfold chatStep
  simp only [if_neg hq, hm1, hargs, hw, List.append_assoc, List.cons_append,
    List.nil_append] at hm2 ⊢
  simp only [hm2]

theorem chatStep_messages_shape (env : Env) (msgs : List Message) (line : String) :
    (pyLower (pyStrip line) = "quit" ∧ (chatStep env msgs line).messages = msgs) ∨
    (pyLower (pyStrip line) ≠ "quit" ∧ ∃ tail, (chatStep env msgs line).messages
        = msgs ++ ⟨"user", none, pyStrip line⟩ :: tail) := by
  by_cases hq : pyLower (pyStrip line) = "quit"
  · exact .inl ⟨hq, by rw [chatStep_quit hq]; rfl⟩
  · refine .inr ⟨hq, ?_⟩
    cases hm : env.model (some weatherSchema) (msgs ++ [⟨"user", none, pyStrip line⟩]) with
    | error e => exact ⟨[], by rw [chatStep_model1_error hq hm]; rfl⟩
    | ok am =>
      obtain ⟨c, fc⟩ := am
      cases fc with
      | none => exact ⟨[⟨"assistant", none, c⟩], by rw [chatStep_direct hq hm]; rfl⟩
      | some args =>
        cases hargs : applyFetchKwargs args with
        | error e => exact ⟨[], by rw [chatStep_kwargs_error hq hm hargs]; rfl⟩
        | ok loc =>
          cases hw : fetch_weather_from_api env.http loc with
          | error e => exact ⟨[], by rw [chatStep_fetch_error hq hm hargs hw]; rfl⟩
          | ok w =>
            cases hm2 : env.model none (msgs ++ [⟨"user", none, pyStrip line⟩,
                ⟨"function", some "fetch_weather_from_api", weatherDataStr w⟩]) with
            | error e =>
              exact ⟨[⟨"function", some "fetch_weather_from_api", weatherDataStr w⟩],
                by rw [chatStep_model2_error hq hm hargs hw hm2]; rfl⟩
            | ok am2 =>
              obtain ⟨c2, fc2⟩ := am2
              exact ⟨[⟨"function", some "fetch_weather_from_api", weatherDataStr w⟩,
                  ⟨"assistant", none, c2⟩],
                by rw [chatStep_weather hq hm hargs hw hm2]; rfl⟩

theorem chatStep_msgs_extends (env : Env) (msgs : List Message) (line : String) :
    ∃ tail, (chatStep env msgs line).messages = msgs ++ tail := by
  rcases chatStep_messages_shape env msgs line with ⟨-, h⟩ | ⟨-, t, h⟩
  · exact ⟨[], by rw [h, List.append_nil]⟩
  · exact ⟨_, h⟩

theorem chatLoop_msgs_extends (env : Env) (lines : List String) :
    ∀ msgs : List Message, ∃ tail, (chatLoop env lines msgs).2.1 = msgs ++ tail := by
  induction lines with
  | nil => exact fun msgs => ⟨[], by simp [chatLoop]⟩
  | cons line rest ih =>
    intro msgs
    obtain ⟨t1, ht1⟩ := chatStep_msgs_extends env msgs line
    cases hs : chatStep env msgs line with
    | quit evs ms =>
      rw [hs] at ht1
      exact ⟨t1, by unfold chatLoop; rw [hs]; exact ht1⟩
    | failed e evs ms =>
      rw [hs] at ht1
      exact ⟨t1, by unfold chatLoop; rw [hs]; exact ht1⟩
    | next evs ms =>
      rw [hs] at ht1
      obtain ⟨t2, ht2⟩ := ih ms
      subst ht1
      refine ⟨t1 ++ t2, ?_⟩
      unfold chatLoop
      rw [hs]
      simpa [List.append_assoc] using ht2

theorem chatStep_first_modelCall (env : Env) (msgs : List Message) (line : String)
    (sch : Option FunctionSchema) (t : List Message)
    (h : ((chatStep env msgs line).events.head? = some (.modelCall sch t))) :
    sch = some weatherSchema ∧ t = msgs ++ [⟨"user", none, pyStrip line⟩] := by
  by_cases hq : pyLower (pyStrip line) = "quit"
  · rw [chatStep_quit hq] at h
    cases h
  · cases hm : env.model (some weatherSchema) (msgs ++ [⟨"user", none, pyStrip line⟩]) with
    | error e =>
      rw [chatStep_model1_error hq hm] at h
      obtain ⟨h1, h2⟩ := Event.modelCall.inj (Option.some.inj h)
      exact ⟨h1.symm, h2.symm⟩
    | ok am =>
      obtain ⟨c, fc⟩ := am
      cases fc with
      | none =>
        rw [chatStep_direct hq hm] at h
        obtain ⟨h1, h2⟩ := Event.modelCall.inj (Option.some.inj h)
        exact ⟨h1.symm, h2.symm⟩
      | some args =>
        cases hargs : applyFetchKwargs args with
        | error e =>
          rw [chatStep_kwargs_error hq hm hargs] at h
          obtain ⟨h1, h2⟩ := Event.modelCall.inj (Option.some.inj h)
          exact ⟨h1.symm, h2.symm⟩
        | ok loc =>
          cases hw : fetch_weather_from_api env.http loc with
          | error e =>
            rw [chatStep_fetch_error hq hm hargs hw] at h
            obtain ⟨h1, h2⟩ := Event.modelCall.inj (Option.some.inj h)
            exact ⟨h1.symm, h2.symm⟩
          | ok w =>
            cases hm2 : env.model none (msgs ++ [⟨"user", none, pyStrip line⟩,
                ⟨"function", some "fetch_weather_from_api", weatherDataStr w⟩]) with
            | error e =>
              rw [chatStep_model2_error hq hm hargs hw hm2] at h
              obtain ⟨h1, h2⟩ := Event.modelCall.inj (Option.some.inj h)
              exact ⟨h1.symm, h2.symm⟩
            | ok am2 =>
              obtain ⟨c2, fc2⟩ := am2
              rw [chatStep_weather hq hm hargs hw hm2] at h
              obtain ⟨h1, h2⟩ := Event.modelCall.inj (Option.some.inj h)
              exact ⟨h1.symm, h2.symm⟩

theorem interleaveTurns_length (ls rs : List String) (h : rs.length = ls.length) :
    (interleaveTurns ls rs).length = 2 * ls.length := by
  induction ls generalizing rs with
  | nil => simp [interleaveTurns]
  | cons l t ih =>
    cases rs with
    | nil => cases h
    | cons a rt =>
      simp only [interleaveTurns, List.length_cons, ih rt (by simpa using h)]
      ring

theorem chatLoop_direct (env : Env) (lines : List String)
    (hmodel : ∀ sch ms, ∃ c, env.model sch ms = .ok ⟨c, none⟩)
    (hlines : ∀ l ∈ lines, pyLower (pyStrip l) ≠ "quit") :
    ∀ msgs : List Message, ∃ replies : List String,
      replies.length = lines.length ∧
      (chatLoop env lines msgs).2.1 = msgs ++ interleaveTurns lines replies ∧
      (chatLoop env lines msgs).2.2 = .inputGone := by
  induction lines with
  | nil => exact fun msgs => ⟨[], rfl, by simp [chatLoop, interleaveTurns], rfl⟩
  | cons line rest ih =>
    intro msgs
    obtain ⟨c, hc⟩ := hmodel (some weatherSchema) (msgs ++ [⟨"user", none, pyStrip line⟩])
    have hstep := chatStep_direct (hlines line (by simp)) hc
    obtain ⟨replies, hlen, hmsgs, hout⟩ := ih (fun l hl => hlines l (by simp [hl]))
      (msgs ++ [⟨"user", none, pyStrip line⟩, ⟨"assistant", none, c⟩])
    refine ⟨c :: replies, by simp [hlen], ?_, ?_⟩
    · unfold chatLoop
      rw [hstep]
      simp only [interleaveTurns]
      rw [hmsgs]
      simp [List.append_assoc]
    · unfold chatLoop
      rw [hstep]
      simpa using hout

theorem dropWhile_append_of_forall {p : Char → Bool} {w : List Char} (rest : List Char)
    (hw : ∀ c ∈ w, p c = true) :
    (w ++ rest).dropWhile p = rest.dropWhile p := by
  induction w with
  | nil => rfl
  | cons a t ih =>
    rw [List.cons_append, List.dropWhile_cons, if_pos (hw a (by simp))]
    exact ih fun c hc => hw c (by simp [hc])

theorem dropWhile_eq_self_of_head {p : Char → Bool} {l : List Char}
    (h : ∀ c, l.head? = some c → p c = false) :
    l.dropWhile p = l := by
  cases l with
  | nil => rfl
  | cons a t => rw [List.dropWhile_cons, if_neg (by simp [h a rfl])]

theorem pyStrip_sandwich {u m v : List Char}
    (h1 : ∀ c ∈ u, c.isWhitespace = true)
    (h2 : ∀ c ∈ v, c.isWhitespace = true)
    (hhead : ∀ c, m.head? = some c → c.isWhitespace = false)
    (hlast : ∀ c, m.getLast? = some c → c.isWhitespace = false) :
    pyStrip ⟨u ++ m ++ v⟩ = ⟨m⟩ := by
  unfold pyStrip
  congr 1
  cases m with
  | nil =>
    rw [List.append_nil]
    rw [dropWhile_append_of_forall v h1]
    have hv : v.dropWhile Char.isWhitespace = [] := by
      have := dropWhile_append_of_forall (p := Char.isWhitespace) ([] : List Char) h2
      simpa using this
    rw [hv]
    rfl
  | cons c0 ct =>
    have hstep1 : (u ++ (c0 :: ct) ++ v).dropWhile Char.isWhitespace = (c0 :: ct) ++ v := by
      rw [List.append_assoc, dropWhile_append_of_forall _ h1]
      refine dropWhile_eq_self_of_head fun c hc => ?_
      simp only [List.cons_append, List.head?_cons, Option.some.injEq] at hc
      exact hc ▸ hhead c0 rfl
    have hstep3 : (v.reverse ++ (c0 :: ct).reverse).dropWhile Char.isWhitespace
        = (c0 :: ct).reverse := by
      rw [dropWhile_append_of_forall _ fun c hc => h2 c (List.mem_reverse.mp hc)]
      refine dropWhile_eq_self_of_head fun c hc => ?_
      rw [List.head?_reverse] at hc
      exact hlast c hc
    rw [hstep1, List.reverse_append, hstep3, List.reverse_reverse]

theorem ws_toLower_fixed {c : Char} (h : c.isWhitespace = true) : c.toLower = c := by
  have h' : ((c = ' ' ∨ c = '\t') ∨ c = '\r') ∨ c = '\n' := by
    simpa [Char.isWhitespace] using h
  rcases h' with ((h | h) | h) | h <;> subst h <;> decide

theorem not_ws_of_toLower {c r : Char} (hct : c.toLower = r) (hr : r.isWhitespace = false) :
    c.isWhitespace = false := by
  cases hws : c.isWhitespace
  · rfl
  · exfalso
    have hfix := ws_toLower_fixed hws
    rw [hct] at hfix
    rw [← hfix] at hws
    rw [hws] at hr
    cases hr

theorem pyStrip_of_pyLower_quit {s : String} (h : pyLower s = "quit") : pyStrip s = s := by
  have h' : s.data.map Char.toLower = ['q', 'u', 'i', 't'] := congrArg String.data h
  have hhead : ∀ c, s.data.head? = some c → c.isWhitespace = false := by
    intro c hc
    have hq : (s.data.map Char.toLower).head? = some 'q' := by rw [h']; rfl
    rw [List.head?_map, hc] at hq
    exact not_ws_of_toLower (Option.some.inj hq) (by decide)
  have hlast : ∀ c, s.data.getLast? = some c → c.isWhitespace = false := by
    intro c hc
    have ht : (s.data.map Char.toLower).getLast? = some 't' := by rw [h']; rfl
    rw [List.getLast?_map, hc] at ht
    exact not_ws_of_toLower (Option.some.inj ht) (by decide)
  have hs := @pyStrip_sandwich [] s.data [] (by simp) (by simp) hhead hlast
  simpa using hs
/-! ## The claims -/

/-- C1: the claim that the function-invocation payload is parsed as data only,
never executed as code, and that only the recognized key `location` is
extracted and forwarded, fails on the source: main.py line 123 evaluates the
payload with `eval` and line 124 forwards every key of it via `**`.  Already
at the data level a payload with one extra key `units` makes the dispatch
raise TypeError — the extra content changes execution — where the data-only
parse of the spec (`specExtractLocation`) still extracts `Paris`; the session
dies instead of looking the weather up. -/
theorem C1_payload_not_data_only :
    applyFetchKwargs [("location", "Paris"), ("units", "metric")] = .error .typeError ∧
    specExtractLocation [("location", "Paris"), ("units", "metric")] = some "Paris" ∧
    chatStep envEvil initialMessages "weather in Paris?"
      = .failed .typeError
        [.modelCall (some weatherSchema)
          (initialMessages ++ [⟨"user", none, pyStrip "weather in Paris?"⟩])]
        (initialMessages ++ [⟨"user", none, pyStrip "weather in Paris?"⟩]) :=
  ⟨rfl, rfl, rfl⟩

/-- C2: for every provider JSON response carrying a Kelvin temperature `k` at
`main.temp`, a weather fetch that returns a result at all returns temperature
`k - 273.15` rounded to one decimal place; in particular `k = 300.15` yields
`27.0`, `k = 273.15` yields `0.0`, and the raw Celsius values `20.04` and
`20.06` round to `20.0` and `20.1`. -/
theorem C2_kelvin_to_celsius_rounded :
    (∀ (http : String → Except Err Json) (loc : String) (data mainObj : Json) (k : ℚ)
        (r : WeatherResult),
        http loc = .ok data →
        pyGetItem data "main" = .ok mainObj →
        pyGetItem mainObj "temp" = .ok (.num k) →
        fetch_weather_from_api http loc = .ok r →
        r.temperature = pyRound1 (k - 273.15))
    ∧ pyRound1 (300.15 - 273.15) = 27
    ∧ pyRound1 (273.15 - 273.15) = 0
    ∧ pyRound1 20.04 = 20
    ∧ pyRound1 20.06 = 20.1 := by
  refine ⟨?_, ?_, ?_, ?_, ?_⟩
  · intro http loc data mainObj k r hhttp hmain htemp hfetch
    obtain ⟨data', mainObj', tempJ', k', wList, w0, cond, hd, hm, ht, hk, -, -, -, hr⟩ :=
      fetch_ok_inv hfetch
    rw [hhttp] at hd
    cases Except.ok.inj hd
    rw [hmain] at hm
    cases Except.ok.inj hm
    rw [htemp] at ht
    cases Except.ok.inj ht
    cases Except.ok.inj hk
    rw [hr]
  · rw [pyRound1_eq_low (n := 270) (by norm_num) (by norm_num)]
    norm_num
  · rw [pyRound1_eq_low (n := 0) (by norm_num) (by norm_num)]
    norm_num
  · rw [pyRound1_eq_low (n := 200) (by norm_num) (by norm_num)]
    norm_num
  · rw [pyRound1_eq_high (n := 200) (by norm_num) (by norm_num)]
    norm_num

/-- Witness for C2 at a concrete response: 300.15 K comes back as 27.0 °C. -/
theorem C2_kelvin_to_celsius_rounded_witness :
    ∃ r : WeatherResult,
      fetch_weather_from_api (fun _ => .ok sampleResp) "Berlin" = .ok r ∧
      r.temperature = pyRound1 (300.15 - 273.15) ∧ r.temperature = 27 := by
  refine ⟨⟨.str "clear sky", pyRound1 (300.15 - 273.15)⟩, rfl, ?_, ?_⟩
  · exact C2_kelvin_to_celsius_rounded.1 (fun _ => .ok sampleResp) "Berlin" sampleResp
      (.obj [("temp", .num 300.15)]) 300.15 _ rfl rfl rfl rfl
  · exact C2_kelvin_to_celsius_rounded.2.1

/-- C3: a provider response that lacks the `weather` list, or `main.temp`, or
`weather[0].description`, makes the weather fetch fail with an
UpstreamDataError, and no WeatherResult — partial or otherwise — is
produced. -/
theorem C3_missing_keys_fail_upstream
    (http : String → Except Err Json) (loc : String) (data : Json)
    (hhttp : http loc = .ok data)
    (hmissing : hasWeatherList data = false ∨ hasMainTemp data = false ∨
      hasFirstDescription data = false) :
    ∃ e : Err, fetch_weather_from_api http loc = .error e ∧
      e.isUpstreamDataError = true ∧
      ∀ r : WeatherResult, fetch_weather_from_api http loc ≠ .ok r := by
  cases hf : fetch_weather_from_api http loc with
  | ok r =>
    obtain ⟨data', mainObj, tempJ, k, wList, w0, cond, hd, hm, ht, hk, hw, h0, hc, -⟩ :=
      fetch_ok_inv hf
    rw [hhttp] at hd
    cases Except.ok.inj hd
    rcases hmissing with hmiss | hmiss | hmiss
    · rw [hasWeatherList, hw] at hmiss
      cases hmiss
    · rw [hasMainTemp, hm, exceptBind_ok, ht] at hmiss
      cases hmiss
    · rw [hasFirstDescription, hw, exceptBind_ok, h0, exceptBind_ok, hc] at hmiss
      cases hmiss
  | error e =>
    exact ⟨e, rfl, fetch_error_upstream hhttp hf, fun r hr => by cases hr⟩

/-- Witness for C3: a response with `main.temp` but no `weather` list fails
with a response-shape error. -/
theorem C3_missing_keys_fail_upstream_witness :
    (hasWeatherList (.obj [("main", .obj [("temp", .num 300.15)])]) = false ∨
      hasMainTemp (.obj [("main", .obj [("temp", .num 300.15)])]) = false ∨
      hasFirstDescription (.obj [("main", .obj [("temp", .num 300.15)])]) = false) ∧
    ∃ e : Err,
      fetch_weather_from_api (fun _ => .ok (.obj [("main", .obj [("temp", .num 300.15)])]))
          "Berlin" = .error e ∧
      e.isUpstreamDataError = true ∧
      ∀ r : WeatherResult,
        fetch_weather_from_api (fun _ => .ok (.obj [("main", .obj [("temp", .num 300.15)])]))
          "Berlin" ≠ .ok r := by
  refine ⟨.inl rfl, ?_⟩
  exact C3_missing_keys_fail_upstream
    (fun _ => .ok (.obj [("main", .obj [("temp", .num 300.15)])])) "Berlin"
    (.obj [("main", .obj [("temp", .num 300.15)])]) rfl (.inl rfl)

/-- C4: in a loop turn where the model requests a weather invocation (and the
turn completes), the transcript for the turn reads user message, then a
function-result message named `fetch_weather_from_api`, then an assistant
message, in that order; the events show exactly two outbound model calls,
and the second one carries no function schema. -/
theorem C4_weather_turn_shape
    (env : Env) (msgs : List Message) (line : String) (c1 c2 : String)
    (args : List (String × String)) (loc : String) (w : WeatherResult)
    (fc2 : Option (List (String × String)))
    (hq : pyLower (pyStrip line) ≠ "quit")
    (hm1 : env.model (some weatherSchema) (msgs ++ [⟨"user", none, pyStrip line⟩])
        = .ok ⟨c1, some args⟩)
    (hargs : applyFetchKwargs args = .ok loc)
    (hw : fetch_weather_from_api env.http loc = .ok w)
    (hm2 : env.model none (msgs ++ [⟨"user", none, pyStrip line⟩,
        ⟨"function", some "fetch_weather_from_api", weatherDataStr w⟩]) = .ok ⟨c2, fc2⟩) :
    (chatStep env msgs line).messages
        = msgs ++ [⟨"user", none, pyStrip line⟩,
                   ⟨"function", some "fetch_weather_from_api", weatherDataStr w⟩,
                   ⟨"assistant", none, c2⟩] ∧
    (chatStep env msgs line).events
        = [.modelCall (some weatherSchema) (msgs ++ [⟨"user", none, pyStrip line⟩]),
           .weatherCall args,
           .modelCall none (msgs ++ [⟨"user", none, pyStrip line⟩,
             ⟨"function", some "fetch_weather_from_api", weatherDataStr w⟩]),
           .print ("Chat Bot: " ++ c2)] := by
  rw [chatStep_weather hq hm1 hargs hw hm2]
  exact ⟨rfl, rfl⟩

/-- Witness for C4: a concrete weather turn evaluated end to end. -/
theorem C4_weather_turn_shape_witness :
    (chatStep envWeather [] "What is the weather in Berlin?").messages
        = [] ++ [⟨"user", none, pyStrip "What is the weather in Berlin?"⟩,
                 ⟨"function", some "fetch_weather_from_api",
                   weatherDataStr ⟨.str "clear sky", pyRound1 (300.15 - 273.15)⟩⟩,
                 ⟨"assistant", none, "It is 27.0 and clear in Berlin."⟩] ∧
    (chatStep envWeather [] "What is the weather in Berlin?").events
        = [.modelCall (some weatherSchema)
             ([] ++ [⟨"user", none, pyStrip "What is the weather in Berlin?"⟩]),
           .weatherCall [("location", "Berlin")],
           .modelCall none
             ([] ++ [⟨"user", none, pyStrip "What is the weather in Berlin?"⟩,
               ⟨"function", some "fetch_weather_from_api",
                 weatherDataStr ⟨.str "clear sky", pyRound1 (300.15 - 273.15)⟩⟩]),
           .print ("Chat Bot: " ++ "It is 27.0 and clear in Berlin.")] :=
  C4_weather_turn_shape envWeather [] "What is the weather in Berlin?" ""
    "It is 27.0 and clear in Berlin." [("location", "Berlin")] "Berlin"
    ⟨.str "clear sky", pyRound1 (300.15 - 273.15)⟩ none (by decide) rfl rfl rfl rfl

/-- C5: after N user turns that the model answers directly each time, the
transcript holds exactly 1 + 2N messages: the initial system message followed
by one user and one assistant message per turn, in chronological order. -/
theorem C5_direct_turns_transcript
    (env : Env) (lines : List String)
    (hmodel : ∀ sch ms, ∃ c, env.model sch ms = .ok ⟨c, none⟩)
    (hlines : ∀ l ∈ lines, pyLower (pyStrip l) ≠ "quit") :
    ∃ replies : List String,
      replies.length = lines.length ∧
      (chat_with_bot env lines).2.1 = initialMessages ++ interleaveTurns lines replies ∧
      (chat_with_bot env lines).2.1.length = 1 + 2 * lines.length := by
  obtain ⟨replies, hlen, hmsgs, -⟩ := chatLoop_direct env lines hmodel hlines initialMessages
  refine ⟨replies, hlen, hmsgs, ?_⟩
  have hmsgs' : (chat_with_bot env lines).2.1
      = initialMessages ++ interleaveTurns lines replies := hmsgs
  rw [hmsgs', List.length_append, interleaveTurns_length lines replies hlen]
  rfl

/-- Witness for C5 with two concrete direct turns. -/
theorem C5_direct_turns_transcript_witness :
    ∃ replies : List String,
      replies.length = (["hello", "how are you"] : List String).length ∧
      (chat_with_bot envDirect ["hello", "how are you"]).2.1
        = initialMessages ++ interleaveTurns ["hello", "how are you"] replies ∧
      (chat_with_bot envDirect ["hello", "how are you"]).2.1.length = 1 + 2 * 2 :=
  C5_direct_turns_transcript envDirect ["hello", "how are you"]
    (fun _ _ => ⟨"hi there", rfl⟩) (by decide)

/-- C6: an input line that case-insensitively equals `quit` makes the session
print the farewell and terminate: no further model or weather call happens
(the events hold only the farewell print), nothing more is appended to the
transcript, and the remaining input is never consumed. -/
theorem C6_quit_ends_session
    (env : Env) (line : String) (rest : List String) (msgs : List Message)
    (hq : pyLower line = "quit") :
    chatLoop env (line :: rest) msgs = ([.print "Chat Bot: Goodbye!"], msgs, .exited) := by
  have hstrip := pyStrip_of_pyLower_quit hq
  have hstep : chatStep env msgs line = .quit [.print "Chat Bot: Goodbye!"] msgs :=
    chatStep_quit (by rw [hstrip, hq])
  unfold chatLoop
  rw [hstep]

/-- Witness for C6 on the line `QUIT`. -/
theorem C6_quit_ends_session_witness :
    pyLower "QUIT" = "quit" ∧
    chatLoop envDirect ["QUIT", "hello"] initialMessages
      = ([.print "Chat Bot: Goodbye!"], initialMessages, .exited) :=
  ⟨rfl, C6_quit_ends_session envDirect "QUIT" ["hello"] initialMessages rfl⟩

/-- C7: the transcript is append-only: one loop step only ever extends the
message list, a whole run only ever extends it, and whenever a step makes a
model call at all, its first model call already carries the user message
appended exactly once at the end of the prior transcript. -/
theorem C7_transcript_append_only :
    (∀ (env : Env) (msgs : List Message) (line : String),
      ∃ tail, (chatStep env msgs line).messages = msgs ++ tail) ∧
    (∀ (env : Env) (lines : List String) (msgs : List Message),
      ∃ tail, (chatLoop env lines msgs).2.1 = msgs ++ tail) ∧
    (∀ (env : Env) (msgs : List Message) (line : String) (sch : Option FunctionSchema)
        (t : List Message),
      (chatStep env msgs line).events.head? = some (.modelCall sch t) →
      sch = some weatherSchema ∧ t = msgs ++ [⟨"user", none, pyStrip line⟩]) :=
  ⟨chatStep_msgs_extends, chatLoop_msgs_extends, chatStep_first_modelCall⟩

/-- Witness for C7 on a concrete run. -/
theorem C7_transcript_append_only_witness :
    (∃ tail, (chatLoop envDirect ["hello"] initialMessages).2.1 = initialMessages ++ tail) ∧
    (some weatherSchema = some weatherSchema ∧
      initialMessages ++ [Message.mk "user" none (pyStrip "hello")]
        = initialMessages ++ [Message.mk "user" none (pyStrip "hello")]) :=
  ⟨C7_transcript_append_only.2.1 envDirect ["hello"] initialMessages,
   C7_transcript_append_only.2.2 envDirect initialMessages "hello" (some weatherSchema)
     (initialMessages ++ [Message.mk "user" none (pyStrip "hello")]) (by rfl)⟩

/-- C8: when the provider response has a non-empty weather-description list,
the conditions field of a returned WeatherResult is, verbatim, the
`description` value of the first entry of that list. -/
theorem C8_conditions_verbatim
    (http : String → Except Err Json) (loc : String) (data : Json)
    (fields : List (String × Json)) (rest : List Json) (d : Json) (r : WeatherResult)
    (hhttp : http loc = .ok data)
    (hweather : pyGetItem data "weather" = .ok (.arr (Json.obj fields :: rest)))
    (hdesc : fields.lookup "description" = some d)
    (hfetch : fetch_weather_from_api http loc = .ok r) :
    r.conditions = d := by
  obtain ⟨data', mainObj, tempJ, k, wList, w0, cond, hd, hm, ht, hk, hw, h0, hc, hr⟩ :=
    fetch_ok_inv hfetch
  rw [hhttp] at hd
  cases Except.ok.inj hd
  rw [hweather] at hw
  cases Except.ok.inj hw
  have h0' : pyGetIndex (.arr (Json.obj fields :: rest)) 0 = .ok (Json.obj fields) := rfl
  rw [h0'] at h0
  cases Except.ok.inj h0
  rw [pyGetItem, hdesc] at hc
  cases Except.ok.inj hc
  rw [hr]

/-- Witness for C8 at a concrete response: the conditions come back as
`clear sky` verbatim. -/
theorem C8_conditions_verbatim_witness :
    ∃ r : WeatherResult,
      fetch_weather_from_api (fun _ => .ok sampleResp) "Paris" = .ok r ∧
      r.conditions = .str "clear sky" := by
  refine ⟨⟨.str "clear sky", pyRound1 (300.15 - 273.15)⟩, rfl, ?_⟩
  exact C8_conditions_verbatim (fun _ => .ok sampleResp) "Paris" sampleResp
    [("description", .str "clear sky")] [] (.str "clear sky") _ rfl rfl rfl rfl

/-- C9: an error of the language-model endpoint or of the weather client in
any loop iteration propagates uncaught and terminates the session: the run
ends crashed with that very error, nothing is retried, and no further input
is consumed. -/
theorem C9_errors_propagate :
    (∀ (env : Env) (line : String) (rest : List String) (msgs : List Message) (e : Err),
      pyLower (pyStrip line) ≠ "quit" →
      env.model (some weatherSchema) (msgs ++ [⟨"user", none, pyStrip line⟩]) = .error e →
      chatLoop env (line :: rest) msgs
        = ([.modelCall (some weatherSchema) (msgs ++ [⟨"user", none, pyStrip line⟩])],
           msgs ++ [⟨"user", none, pyStrip line⟩], .crashed e)) ∧
    (∀ (env : Env) (line : String) (rest : List String) (msgs : List Message)
        (c1 : String) (args : List (String × String)) (loc : String) (e : Err),
      pyLower (pyStrip line) ≠ "quit" →
      env.model (some weatherSchema) (msgs ++ [⟨"user", none, pyStrip line⟩])
        = .ok ⟨c1, some args⟩ →
      applyFetchKwargs args = .ok loc →
      fetch_weather_from_api env.http loc = .error e →
      chatLoop env (line :: rest) msgs
        = ([.modelCall (some weatherSchema) (msgs ++ [⟨"user", none, pyStrip line⟩]),
            .weatherCall args],
           msgs ++ [⟨"user", none, pyStrip line⟩], .crashed e)) ∧
    (∀ (env : Env) (line : String) (rest : List String) (msgs : List Message)
        (c1 : String) (args : List (String × String)) (loc : String) (w : WeatherResult)
        (e : Err),
      pyLower (pyStrip line) ≠ "quit" →
      env.model (some weatherSchema) (msgs ++ [⟨"user", none, pyStrip line⟩])
        = .ok ⟨c1, some args⟩ →
      applyFetchKwargs args = .ok loc →
      fetch_weather_from_api env.http loc = .ok w →
      env.model none (msgs ++ [⟨"user", none, pyStrip line⟩,
        ⟨"function", some "fetch_weather_from_api", weatherDataStr w⟩]) = .error e →
      chatLoop env (line :: rest) msgs
        = ([.modelCall (some weatherSchema) (msgs ++ [⟨"user", none, pyStrip line⟩]),
            .weatherCall args,
            .modelCall none (msgs ++ [⟨"user", none, pyStrip line⟩,
              ⟨"function", some "fetch_weather_from_api", weatherDataStr w⟩])],
           msgs ++ [⟨"user", none, pyStrip line⟩,
             ⟨"function", some "fetch_weather_from_api", weatherDataStr w⟩],
           .crashed e)) := by
  refine ⟨?_, ?_, ?_⟩
  · intro env line rest msgs e hq hm
    unfold chatLoop
    rw [chatStep_model1_error hq hm]
  · intro env line rest msgs c1 args loc e hq hm1 hargs hw
    unfold chatLoop
    rw [chatStep_fetch_error hq hm1 hargs hw]
  · intro env line rest msgs c1 args loc w e hq hm1 hargs hw hm2
    unfold chatLoop
    rw [chatStep_model2_error hq hm1 hargs hw hm2]

/-- Witness for C9: the first model call fails and kills the session. -/
theorem C9_errors_propagate_witness :
    pyLower (pyStrip "hello") ≠ "quit" ∧
    chatLoop envModelFail ["hello", "more"] initialMessages
      = ([.modelCall (some weatherSchema)
            (initialMessages ++ [⟨"user", none, pyStrip "hello"⟩])],
         initialMessages ++ [⟨"user", none, pyStrip "hello"⟩], .crashed .modelError) :=
  ⟨by decide,
   C9_errors_propagate.1 envModelFail "hello" ["more"] initialMessages .modelError
     (by decide) rfl⟩

/-- C10: every input line is stripped of surrounding whitespace before any
other processing: the loop step behaves exactly as on the stripped line, a
whitespace-wrapped casing of `quit` still ends the session, and the user
message appended to the transcript is the stripped text, never the raw
line. -/
theorem C10_input_stripped
    (line : String) (u m v : List Char)
    (hdata : line.data = u ++ m ++ v)
    (h1 : ∀ c ∈ u, c.isWhitespace = true)
    (h2 : ∀ c ∈ v, c.isWhitespace = true)
    (hhead : ∀ c, m.head? = some c → c.isWhitespace = false)
    (hlast : ∀ c, m.getLast? = some c → c.isWhitespace = false) :
    pyStrip line = ⟨m⟩ ∧
    (∀ (env : Env) (msgs : List Message),
      chatStep env msgs line = chatStep env msgs ⟨m⟩) ∧
    (pyLower ⟨m⟩ = "quit" →
      ∀ (env : Env) (rest : List String) (msgs : List Message),
        chatLoop env (line :: rest) msgs
          = ([.print "Chat Bot: Goodbye!"], msgs, .exited)) ∧
    (pyLower ⟨m⟩ ≠ "quit" →
      ∀ (env : Env) (msgs : List Message),
        ∃ tail, (chatStep env msgs line).messages
          = msgs ++ ⟨"user", none, (⟨m⟩ : String)⟩ :: tail) := by
  have hline : line = ⟨u ++ m ++ v⟩ := by
    cases line with
    | mk l =>
      have hd : l = u ++ m ++ v := hdata
      rw [hd]
  have hstrip : pyStrip line = ⟨m⟩ := by
    rw [hline]
    exact pyStrip_sandwich h1 h2 hhead hlast
  have hstrip2 : pyStrip (⟨m⟩ : String) = ⟨m⟩ := by
    have hs := @pyStrip_sandwich [] m [] (by simp) (by simp) hhead hlast
    simpa using hs
  have hcongr : ∀ (env : Env) (msgs : List Message),
      chatStep env msgs line = chatStep env msgs ⟨m⟩ := by
    intro env msgs
    unfold chatStep
    rw [hstrip, hstrip2]
  refine ⟨hstrip, hcongr, ?_, ?_⟩
  · intro hq env rest msgs
    have hstep : chatStep env msgs line = .quit [.print "Chat Bot: Goodbye!"] msgs :=
      chatStep_quit (by rw [hstrip, hq])
    unfold chatLoop
    rw [hstep]
  · intro hq env msgs
    rcases chatStep_messages_shape env msgs line with ⟨hq', -⟩ | ⟨-, tail, htail⟩
    · rw [hstrip] at hq'
      exact absurd hq' hq
    · rw [hstrip] at htail
      exact ⟨tail, htail⟩

/-- Witness for C10 on the line `  QUIT  `. -/
theorem C10_input_stripped_witness :
    pyStrip "  QUIT  " = "QUIT" ∧
    chatLoop envDirect ["  QUIT  ", "x"] initialMessages
      = ([.print "Chat Bot: Goodbye!"], initialMessages, .exited) :=
  ⟨(C10_input_stripped "  QUIT  " [' ', ' '] ['Q', 'U', 'I', 'T'] [' ', ' '] (by decide)
      (by decide) (by decide) (fun c hc => by cases hc; rfl) (fun c hc => by cases hc; rfl)).1,
   (C10_input_stripped "  QUIT  " [' ', ' '] ['Q', 'U', 'I', 'T'] [' ', ' '] (by decide)
      (by decide) (by decide) (fun c hc => by cases hc; rfl)
      (fun c hc => by cases hc; rfl)).2.2.1 (by decide) envDirect ["x"] initialMessages⟩

end WeatherBot
